import Mathlib

set_option maxRecDepth 8000

/-!
Shallow embedding of `src/osgpkitools/incommon_request.py` (the InCommon
certificate request script) and verification of the specification's claims
about it.

The script's effectful interactions (HTTP transport, `time.sleep`,
file writes) are embedded as explicit environment functions and event
traces: each retrieval attempt consumes one `TransportEvent` supplied by
the environment, and the orchestrator (`main`) is a pure function from the
parsed host list plus the transport environments to a `RunResult` that
records the tickets, written files, printed summary, exit code and the
ordered event trace.
-/

/-- Source line 38: `MAX_RETRY_RETRIEVAL = 20`. -/
def MAX_RETRY_RETRIEVAL : Nat := 20

/-- Source line 39: `WAIT_RETRIEVAL = 5` (seconds slept between retrieval attempts). -/
def WAIT_RETRIEVAL : Nat := 5

/-- Source line 40: `WAIT_APPROVAL = 30` (seconds slept once before retrieval). -/
def WAIT_APPROVAL : Nat := 30

/-- What one retrieval attempt observes from the transport:
a clean HTTP response with a status code and a body, the
`httplib.BadStatusLine` fault the API uses while the certificate is still
being processed, or any other `httplib.HTTPException`. -/
inductive TransportEvent where
  | resp (status : Nat) (body : String)
  | badStatusLine
  | httpError
  deriving DecidableEq, Repr

/-- Outcome of `retrieve_cert`: the certificate body (a `break` out of the
retry loop with `response_data` set), the `None` returned after the retry
budget is exhausted, or a propagated `httplib.HTTPException`. -/
inductive RetrieveResult where
  | delivered (body : String)
  | exhausted
  | fatal
  deriving DecidableEq, Repr

/-- Observable side effects of one `retrieve_cert` call: how many HTTP
queries were issued, how many `time.sleep(WAIT_RETRIEVAL)` calls ran, and
how many times the connection was closed. -/
structure RTrace where
  queries : Nat
  sleeps : Nat
  closes : Nat
  deriving DecidableEq, Repr

/-- Effect of one transient (non-200 / bad-status-line) loop iteration on
the totals of the remaining iterations: one query was issued, then the
connection was closed and `time.sleep(WAIT_RETRIEVAL)` ran (source lines
336-339). -/
def bumpTransient : RetrieveResult × RTrace → RetrieveResult × RTrace
  | (r, t) => (r, ⟨t.queries + 1, t.sleeps + 1, t.closes + 1⟩)

/-- Effect of `k` leading transient iterations on the loop totals. -/
def bumpK (k : Nat) : RetrieveResult × RTrace → RetrieveResult × RTrace
  | (r, t) => (r, ⟨t.queries + k, t.sleeps + k, t.closes + k⟩)

/-- The `for _ in range(retry_count)` loop of `retrieve_cert` (source lines
317-339).  `env i` is what attempt `i` observes; `fuel` is the remaining
attempt budget.  A 200 response closes the connection and breaks with the
body; a clean non-200 response falls through to the close-and-sleep tail of
the loop; `BadStatusLine` is swallowed (`pass`) and likewise falls through;
any other `HTTPException` is re-raised, skipping the close and the sleep. -/
def retrieveAux (env : Nat → TransportEvent) (i : Nat) :
    Nat → RetrieveResult × RTrace
  | 0 => (.exhausted, ⟨0, 0, 0⟩)
  | fuel + 1 =>
    match env i with
    | .resp s b =>
      if s = 200 then (.delivered b, ⟨1, 0, 1⟩)
      else bumpTransient (retrieveAux env (i + 1) fuel)
    | .badStatusLine => bumpTransient (retrieveAux env (i + 1) fuel)
    | .httpError => (.fatal, ⟨1, 0, 0⟩)

/-- `retrieve_cert` (source lines 304-341): poll the collect endpoint up to
`MAX_RETRY_RETRIEVAL` times, returning `response_data` (still `None`, i.e.
`exhausted`, when no attempt broke out of the loop). -/
def retrieve_cert (env : Nat → TransportEvent) : RetrieveResult × RTrace :=
  retrieveAux env 0 MAX_RETRY_RETRIEVAL

/-- An attempt outcome is transient when the loop falls through to the
sleep-and-retry tail: a `BadStatusLine` fault or a clean non-200 response. -/
def transientEv : TransportEvent → Bool
  | .resp s _ => s != 200
  | .badStatusLine => true
  | .httpError => false

/-! ## Host parsing (source lines 366-372) -/

/-- Python `str.split()` with no separator over the characters of a line:
split on runs of whitespace, never producing empty tokens.  `acc` holds the
current token's characters in reverse. -/
def pySplitAux : List Char → List Char → List (List Char)
  | [], acc => if acc = [] then [] else [acc.reverse]
  | c :: cs, acc =>
    if c.isWhitespace then
      if acc = [] then pySplitAux cs []
      else acc.reverse :: pySplitAux cs []
    else pySplitAux cs (c :: acc)

/-- Python `line.split()`. -/
def pySplit (s : String) : List String :=
  (pySplitAux s.toList []).map List.asString

/-- One host tuple of the batch: `host[0]` is the common name and
`host[1:]` the alternative names (source lines 382-383). -/
structure Host where
  cn : String
  alts : List String
  deriving DecidableEq, Repr

/-- `tuple(line.split())` viewed as a `Host`; `none` corresponds to a line
whose `line.strip()` is falsy, which the list comprehension skips. -/
def hostOfTokens : List String → Option Host
  | [] => none
  | c :: a => some ⟨c, a⟩

/-- Source line 372:
`hosts = [tuple(line.split()) for line in host_lines if line.strip()]`
(a line is kept exactly when it has a non-whitespace character, i.e. when
`line.split()` is non-empty). -/
def hostsFromLines (lines : List String) : List Host :=
  lines.filterMap (fun l => hostOfTokens (pySplit l))

/-- Source line 368 (single-hostname mode):
`hosts = [tuple([ARGS['hostname'].strip()] + ARGS['alt_names'])]`. -/
def hostFromArgs (hostname : String) (alt_names : List String) : Host :=
  ⟨hostname.trim, alt_names⟩

/-! ## Configuration and enrollment payload (source lines 42-60, 263-302) -/

/-- The `[InCommon]` section of `CONFIG_TEXT` (source lines 42-60);
`ConfigParser` yields every value as a string. -/
structure Config where
  organization : String
  department : String
  customeruri : String
  igtfservercert : String
  igtfmultidomain : String
  servertype : String
  term : String
  apiurl : String
  listingurl : String
  enrollurl : String
  retrieveurl : String
  sslid : String
  certx509co : String
  content_type : String
  deriving DecidableEq, Repr

/-- The parsed `CONFIG_TEXT` values. -/
def CONFIG : Config :=
  { organization := "9697"
    department := "9732"
    customeruri := "InCommon"
    igtfservercert := "215"
    igtfmultidomain := "283"
    servertype := "-1"
    term := "395"
    apiurl := "cert-manager.com"
    listingurl := "/private/api/ssl/v1/types"
    enrollurl := "/private/api/ssl/v1/enroll"
    retrieveurl := "/private/api/ssl/v1/collect/"
    sslid := "sslId"
    certx509co := "/x509CO"
    content_type := "application/json" }

/-- The JSON payload posted to the enroll endpoint (source lines 278-289). -/
structure Payload where
  csr : String
  orgId : String
  certType : String
  numberServers : Nat
  serverType : String
  term : String
  comments : String
  subjAltNames : Option (List String)
  deriving DecidableEq, Repr

/-- Payload construction inside `submit_request` (source lines 273-289):
`cert_type` is `igtfservercert` unless `sans` is truthy (non-empty), in
which case it is `igtfmultidomain`; `subjAltNames` is added to the payload
only when `sans` is truthy. -/
def buildPayload (config : Config) (hostname cert_csr : String)
    (sans : List String) : Payload :=
  let cert_type := if sans ≠ [] then config.igtfmultidomain
                   else config.igtfservercert
  { csr := cert_csr
    orgId := config.department
    certType := cert_type
    numberServers := 0
    serverType := config.servertype
    term := config.term
    comments := "Certificate request for " ++ hostname
    subjAltNames := if sans ≠ [] then some sans else none }

/-! ## Enrollment submission (source lines 263-302) -/

/-- The transport's reply to one enrollment POST: a clean response whose
parsed JSON body may or may not carry the `sslId` field, or an
`httplib.HTTPException`. -/
inductive SubmitEvent where
  | resp (status : Nat) (sslId : Option Nat)
  | httpError
  deriving DecidableEq, Repr

/-- How one `submit_request` call ends: a returned value (`response_data`,
which is the `sslId` on HTTP 200 and `None` on any other status), a
`KeyError` raised by `response_data['sslId']` when a 200 body lacks the
field, or a re-raised `httplib.HTTPException`. -/
inductive SubmitResult where
  | ok (sslId : Option Nat)
  | keyError
  | httpExc
  deriving DecidableEq, Repr

/-- `submit_request` (source lines 263-302): build the payload, POST it,
and on HTTP 200 parse the body and index it with `'sslId'` — an absent
field raises `KeyError`; a non-200 status leaves `response_data = None`;
an `httplib.HTTPException` from the POST is re-raised. -/
def submit_request (hostname cert_csr : String) (sans : List String)
    (post : Payload → SubmitEvent) : SubmitResult :=
  match post (buildPayload CONFIG hostname cert_csr sans) with
  | .httpError => .httpExc
  | .resp status sslId =>
    if status = 200 then
      match sslId with
      | some id => .ok (some id)
      | none => .keyError
    else .ok none

/-! ## The orchestrator `main` (source lines 343-424) -/

/-- Modelled from the spec: `utils.Csr` is not under `src/`.  Per spec
§4.1 the CSR's X509 subject is derived from the common name alone; the
M2Crypto subject string used by `main` (`str(csr.x509request.get_subject())`)
has the shape `/CN=<common name>`. -/
def subjOf (h : Host) : String := "/CN=" ++ h.cn

/-- Modelled from the spec: `utils.Csr.base64_csr` is not under `src/`;
per spec §4.1 it returns the CSR body as base64 DER.  Its exact content is
irrelevant to every claim, so it is an opaque-but-computable function of
the common name. -/
def csrBodyOf (h : Host) : String := "csr:" ++ h.cn

/-- Python `subj.split("=")` (split on every `'='`, keeping empty pieces). -/
def splitEqAux : List Char → List Char → List (List Char)
  | [], acc => [acc.reverse]
  | c :: cs, acc =>
    if c = '=' then acc.reverse :: splitEqAux cs []
    else splitEqAux cs (c :: acc)

/-- `subj.split("=")[1]` (source line 418), the base name of the
certificate file `<base>-cert.pem`.  The subjects built by `main` always
contain a `'='`, so the total `getD` never pads. -/
def certFileBase (subj : String) : String :=
  ((splitEqAux subj.toList []).map List.asString).getD 1 ""

/-- An `EnrollmentTicket`: source line 399 appends
`tuple([response_request, subj])` to `requests`. -/
structure Ticket where
  sslId : Nat
  subject : String
  deriving DecidableEq, Repr

/-- The externally visible steps of one run, in program order. -/
inductive Event where
  | submitReq (h : Host)
  | keyWrite (cn : String)
  | approvalWait
  | retrieveQuery (sslId : Nat)
  | certWrite (name : String)
  deriving DecidableEq, Repr

/-- Python truthiness of `response_request` at source line 398
(`if response_request:`): `None` and the integer `0` are falsy. -/
def truthy : Option Nat → Bool
  | some id => id != 0
  | none => false

/-- Accumulated state of the submission loop (source lines 392-402). -/
structure SubmitPhase where
  tickets : List Ticket
  keysWritten : List String
  submitted : List Host
  trace : List Event
  ok : Bool
  deriving DecidableEq, Repr

/-- The submission loop `for csr in csrs` (source lines 392-402): submit
each CSR; when the returned `response_request` is truthy, append the ticket
and write the key file (`csr.write_pkey()`, modelled from spec §4.1 as the
only key-file write); a `KeyError` or `HTTPException` escapes the loop and
aborts the run. -/
def submitPhase (senv : Host → SubmitEvent) : List Host → SubmitPhase
  | [] => { tickets := [], keysWritten := [], submitted := [], trace := [], ok := true }
  | h :: rest =>
    match submit_request (subjOf h) (csrBodyOf h) h.alts (fun _ => senv h) with
    | .httpExc =>
      { tickets := [], keysWritten := [], submitted := [h],
        trace := [.submitReq h], ok := false }
    | .keyError =>
      { tickets := [], keysWritten := [], submitted := [h],
        trace := [.submitReq h], ok := false }
    | .ok r =>
      let tail := submitPhase senv rest
      if truthy r then
        { tickets := ⟨r.getD 0, subjOf h⟩ :: tail.tickets
          keysWritten := h.cn :: tail.keysWritten
          submitted := h :: tail.submitted
          trace := .submitReq h :: .keyWrite h.cn :: tail.trace
          ok := tail.ok }
      else
        { tickets := tail.tickets
          keysWritten := tail.keysWritten
          submitted := h :: tail.submitted
          trace := .submitReq h :: tail.trace
          ok := tail.ok }

/-- Accumulated state of the retrieval loop (source lines 412-421). -/
structure RetrievePhase where
  certsWritten : List String
  trace : List Event
  ok : Bool
  deriving DecidableEq, Repr

/-- The retrieval loop `for request in requests` (source lines 412-421):
poll for each ticket (`renv id i` is what attempt `i` for tracking id `id`
observes); when a body came back, write `<subj.split("=")[1]>-cert.pem`;
an exhausted budget (`None`) skips the host; a fatal transport exception
escapes the loop and aborts the run. -/
def retrievePhase (renv : Nat → Nat → TransportEvent) :
    List Ticket → RetrievePhase
  | [] => { certsWritten := [], trace := [], ok := true }
  | t :: rest =>
    match retrieve_cert (renv t.sslId) with
    | (.delivered _, tr) =>
      let tail := retrievePhase renv rest
      { certsWritten := certFileBase t.subject :: tail.certsWritten
        trace := List.replicate tr.queries (.retrieveQuery t.sslId)
                  ++ .certWrite (certFileBase t.subject) :: tail.trace
        ok := tail.ok }
    | (.exhausted, tr) =>
      let tail := retrievePhase renv rest
      { certsWritten := tail.certsWritten
        trace := List.replicate tr.queries (.retrieveQuery t.sslId) ++ tail.trace
        ok := tail.ok }
    | (.fatal, tr) =>
      { certsWritten := []
        trace := List.replicate tr.queries (.retrieveQuery t.sslId)
        ok := false }

/-- Everything a run leaves behind. -/
structure RunResult where
  csrHosts : List Host
  tickets : List Ticket
  keysWritten : List String
  certsWritten : List String
  submitted : List Host
  summary : Option (Nat × Nat)
  exitCode : Nat
  submitOk : Bool
  retrieveOk : Bool
  trace : List Event
  deriving DecidableEq, Repr

/-- Assemble the run outcome from the two loop phases: an exception
escaping the submission loop (`sp.ok = false`) skips the approval sleep,
the retrieval loop and the summary, and `main`'s handlers exit with status
1; an exception escaping the retrieval loop likewise skips the summary and
exits with status 1; otherwise the summary `(len(csrs), len(requests))` is
printed and the script exits with status 0. -/
def assembleRun (uniq : List Host) (sp : SubmitPhase) (rp : RetrievePhase) :
    RunResult :=
  if sp.ok then
    if rp.ok then
      { csrHosts := uniq, tickets := sp.tickets
        keysWritten := sp.keysWritten, certsWritten := rp.certsWritten
        submitted := sp.submitted
        summary := some (uniq.length, sp.tickets.length)
        exitCode := 0, submitOk := true, retrieveOk := true
        trace := sp.trace ++ .approvalWait :: rp.trace }
    else
      { csrHosts := uniq, tickets := sp.tickets
        keysWritten := sp.keysWritten, certsWritten := rp.certsWritten
        submitted := sp.submitted
        summary := none
        exitCode := 1, submitOk := true, retrieveOk := false
        trace := sp.trace ++ .approvalWait :: rp.trace }
  else
    { csrHosts := uniq, tickets := sp.tickets
      keysWritten := sp.keysWritten, certsWritten := []
      submitted := sp.submitted
      summary := none
      exitCode := 1, submitOk := false, retrieveOk := true
      trace := sp.trace }

/-- The core of `main` after argument parsing (source lines 366-424):
deduplicate the host tuples (`for host in set(hosts)` — Python's set
iteration order is unspecified; the model fixes one order), build one CSR
per distinct tuple, run the submission loop, sleep `WAIT_APPROVAL` once,
run the retrieval loop over the collected tickets, and print the summary. -/
def runMain (hosts : List Host) (senv : Host → SubmitEvent)
    (renv : Nat → Nat → TransportEvent) : RunResult :=
  assembleRun hosts.dedup (submitPhase senv hosts.dedup)
    (retrievePhase renv (submitPhase senv hosts.dedup).tickets)

/-- Whether one call to `submit_request` returned a truthy tracking id —
the exact condition (`if response_request:`, source line 398) under which
`main` creates the ticket and writes the key file. -/
def submitObtainedId (senv : Host → SubmitEvent) (h : Host) : Bool :=
  match submit_request (subjOf h) (csrBodyOf h) h.alts (fun _ => senv h) with
  | .ok r => truthy r
  | .keyError => false
  | .httpExc => false

/-- Whether a retrieval outcome carried certificate bytes. -/
def isDeliveredB : RetrieveResult → Bool
  | .delivered _ => true
  | .exhausted => false
  | .fatal => false

/-- Concrete host `a.example.org` with no alt-names, for witnesses. -/
def hostA : Host := ⟨"a.example.org", []⟩

/-- Concrete host `b.example.org` with no alt-names, for witnesses. -/
def hostB : Host := ⟨"b.example.org", []⟩

/-- Submission stub: both hosts answer HTTP 200, but `hostA`'s parsed JSON
body lacks the `sslId` field. -/
def senvMissingId : Host → SubmitEvent :=
  fun h => if h.cn = "a.example.org" then .resp 200 none
           else .resp 200 (some 2)

/-- Submission stub: both hosts answer HTTP 200 with an `sslId`. -/
def senvBothIds : Host → SubmitEvent :=
  fun h => if h.cn = "a.example.org" then .resp 200 (some 1)
           else .resp 200 (some 2)

/-- Retrieval stub: every query succeeds with HTTP 200. -/
def renvAlways200 : Nat → Nat → TransportEvent := fun _ _ => .resp 200 "PEM"

/-- Retrieval stub: tracking id 1 is forever still-processing, every other
id succeeds immediately. -/
def renvFirstPending : Nat → Nat → TransportEvent :=
  fun id _ => if id = 1 then .badStatusLine else .resp 200 "PEM"

/-- Retrieval stub: every query raises the still-processing fault. -/
def renvAllPending : Nat → Nat → TransportEvent := fun _ _ => .badStatusLine

theorem bumpTransient_bumpK (k : Nat) (x : RetrieveResult × RTrace) :
    bumpTransient (bumpK k x) = bumpK (k + 1) x := by
  obtain ⟨r, t⟩ := x
  simp [bumpTransient, bumpK]
  omega

theorem retrieveAux_transient_run (env : Nat → TransportEvent) :
    ∀ (k i fuel : Nat), (∀ j, j < k → transientEv (env (i + j)) = true) →
    retrieveAux env i (fuel + k) = bumpK k (retrieveAux env (i + k) fuel) := by
  intro k
  induction k with
  | zero =>
    intro i fuel _
    simp [bumpK]
  | succ k ih =>
    intro i fuel h
    have h0 : transientEv (env i) = true := by
      have := h 0 (Nat.succ_pos k)
      simpa using this
    have htail : ∀ j, j < k → transientEv (env ((i + 1) + j)) = true := by
      intro j hj
      have := h (j + 1) (by omega)
      have hrw : i + (j + 1) = (i + 1) + j := by omega
      rwa [hrw] at this
    have hrec := ih (i + 1) fuel htail
    have hidx : (i + 1) + k = i + (k + 1) := by omega
    cases hev : env i with
    | resp s b =>
      have hs : s ≠ 200 := by
        rw [hev] at h0
        simpa [transientEv] using h0
      show retrieveAux env i ((fuel + k) + 1) = _
      rw [retrieveAux, hev]
      simp only [if_neg hs]
      rw [hrec, hidx, bumpTransient_bumpK]
    | badStatusLine =>
      show retrieveAux env i ((fuel + k) + 1) = _
      rw [retrieveAux, hev]
      rw [hrec, hidx, bumpTransient_bumpK]
    | httpError =>
      rw [hev] at h0
      simp [transientEv] at h0

/-- C1: if the first three retrieval attempts raise the still-processing
`BadStatusLine` fault and the fourth returns HTTP 200 with a body,
`retrieve_cert` issues exactly 4 queries, sleeps `WAIT_RETRIEVAL` exactly 3
times (between consecutive queries, never after the successful one) and
returns the fourth response's body; and if every attempt of the
`MAX_RETRY_RETRIEVAL = 20` budget raises the fault, it returns `None`
(`exhausted`) without raising. -/
theorem retrieve_cert_pending_then_success
    (env env2 : Nat → TransportEvent) (b : String)
    (h0 : env 0 = .badStatusLine) (h1 : env 1 = .badStatusLine)
    (h2 : env 2 = .badStatusLine) (h3 : env 3 = .resp 200 b)
    (hall : ∀ i, i < MAX_RETRY_RETRIEVAL → env2 i = .badStatusLine) :
    retrieve_cert env = (.delivered b, ⟨4, 3, 4⟩) ∧
    retrieve_cert env2 = (.exhausted, ⟨20, 20, 20⟩) := by
  constructor
  · have hpre : ∀ j, j < 3 → transientEv (env (0 + j)) = true := by
      intro j hj
      interval_cases j <;> simp [h0, h1, h2, transientEv]
    have := retrieveAux_transient_run env 3 0 17 hpre
    have hstep : retrieveAux env (0 + 3) 17 = (.delivered b, ⟨1, 0, 1⟩) := by
      show retrieveAux env 3 (16 + 1) = _
      rw [retrieveAux, h3]
      simp
    rw [retrieve_cert]
    show retrieveAux env 0 (17 + 3) = _
    rw [this, hstep]
    simp [bumpK]
  · have hpre : ∀ j, j < 20 → transientEv (env2 (0 + j)) = true := by
      intro j hj
      have := hall j (by simpa [MAX_RETRY_RETRIEVAL] using hj)
      simp [this, transientEv]
    have := retrieveAux_transient_run env2 20 0 0 hpre
    rw [retrieve_cert]
    show retrieveAux env2 0 (0 + 20) = _
    rw [this]
    simp [retrieveAux, bumpK]

/-- Witness for C1 at concrete response sequences. -/
theorem retrieve_cert_pending_then_success_witness :
    retrieve_cert
        (fun i => if i < 3 then .badStatusLine else .resp 200 "PEM")
      = (.delivered "PEM", ⟨4, 3, 4⟩) ∧
    retrieve_cert (fun _ => .badStatusLine) = (.exhausted, ⟨20, 20, 20⟩) :=
  retrieve_cert_pending_then_success
    (fun i => if i < 3 then .badStatusLine else .resp 200 "PEM")
    (fun _ => .badStatusLine) "PEM"
    (by decide) (by decide) (by decide) (by decide)
    (fun i _ => rfl)

/-- C4: a transport exception other than the still-processing
`BadStatusLine` fault propagates immediately out of `retrieve_cert`: after
any run of `i` transient attempts, a fatal attempt yields exactly `i + 1`
queries, `i` sleeps (none after the fatal attempt) and the remaining
attempt budget is not consumed. -/
theorem retrieve_cert_fatal_short_circuit
    (env : Nat → TransportEvent) (i : Nat)
    (hi : i < MAX_RETRY_RETRIEVAL)
    (hpre : ∀ j, j < i → transientEv (env j) = true)
    (hfatal : env i = .httpError) :
    retrieve_cert env = (.fatal, ⟨i + 1, i, i⟩) := by
  have hi' : i < 20 := by simpa [MAX_RETRY_RETRIEVAL] using hi
  have hpre' : ∀ j, j < i → transientEv (env (0 + j)) = true := by
    intro j hj
    simpa using hpre j hj
  have hsplit := retrieveAux_transient_run env i 0 (20 - i) hpre'
  obtain ⟨f, hf⟩ : ∃ f, 20 - i = f + 1 := ⟨20 - i - 1, by omega⟩
  have hstep : retrieveAux env (0 + i) (20 - i) = (.fatal, ⟨1, 0, 0⟩) := by
    rw [hf]
    show retrieveAux env (0 + i) (f + 1) = _
    have : (0 : Nat) + i = i := by omega
    rw [this, retrieveAux, hfatal]
  have hfuel : (20 - i) + i = 20 := by omega
  rw [retrieve_cert]
  show retrieveAux env 0 MAX_RETRY_RETRIEVAL = _
  have hmax : MAX_RETRY_RETRIEVAL = (20 - i) + i := by
    simp [MAX_RETRY_RETRIEVAL]
    omega
  rw [hmax, hsplit, hstep]
  simp [bumpK]
  omega

/-- Witness for C4: two still-processing faults then a fatal transport
error stop the poller after 3 queries and 2 sleeps. -/
theorem retrieve_cert_fatal_short_circuit_witness :
    retrieve_cert (fun j => if j < 2 then .badStatusLine else .httpError)
      = (.fatal, ⟨3, 2, 2⟩) :=
  retrieve_cert_fatal_short_circuit
    (fun j => if j < 2 then .badStatusLine else .httpError) 2
    (by decide) (by decide) (by decide)

/-- C9: a clean response with a well-formed status line but a non-200
status code is treated exactly like the still-processing fault: the
connection is closed, the poller sleeps and retries, and a full budget of
such responses makes `retrieve_cert` return `None` (`exhausted`) — 20
queries, 20 sleeps, 20 closes — rather than failing fatally. -/
theorem non200_response_retried_to_exhaustion
    (env : Nat → TransportEvent)
    (h : ∀ i, i < MAX_RETRY_RETRIEVAL →
        ∃ s b, env i = .resp s b ∧ s ≠ 200) :
    retrieve_cert env = (.exhausted, ⟨20, 20, 20⟩) := by
  have hpre : ∀ j, j < 20 → transientEv (env (0 + j)) = true := by
    intro j hj
    obtain ⟨s, b, hev, hs⟩ := h j (by simpa [MAX_RETRY_RETRIEVAL] using hj)
    simp [hev, transientEv, hs]
  have := retrieveAux_transient_run env 20 0 0 hpre
  rw [retrieve_cert]
  show retrieveAux env 0 (0 + 20) = _
  rw [this]
  simp [retrieveAux, bumpK]

/-- Witness for C9: twenty clean HTTP 404 responses exhaust the budget. -/
theorem non200_response_retried_to_exhaustion_witness :
    retrieve_cert (fun _ => .resp 404 "Not Found")
      = (.exhausted, ⟨20, 20, 20⟩) :=
  non200_response_retried_to_exhaustion (fun _ => .resp 404 "Not Found")
    (fun i _ => ⟨404, "Not Found", rfl, by decide⟩)

/-- C6 counterexample: the host-file line `"h.example.org a1 a1"` yields a
`Host` whose `alts` sequence `["a1", "a1"]` contains a duplicate — the code
never deduplicates alternative names within one request. -/
theorem alt_names_dup_cex :
    ∃ h ∈ hostsFromLines ["h.example.org a1 a1"], ¬ h.alts.Nodup := by
  decide

/-- C6 amended: `alts` of a constructed host request is exactly the
sequence of alternative names supplied — the `-a` values in single-host
mode, the tokens after the first on a host-file line — in order and with
multiplicity preserved; no within-request deduplication is performed (only
identical whole `(common_name, alt_names)` tuples are later collapsed by
`set(hosts)`). -/
theorem alt_names_preserved_verbatim (hostname : String)
    (alt_names : List String) (l : String) :
    (hostFromArgs hostname alt_names).alts = alt_names ∧
    ∀ h ∈ hostsFromLines [l], h.cn :: h.alts = pySplit l := by
  constructor
  · rfl
  · intro h hmem
    simp only [hostsFromLines, List.filterMap] at hmem
    cases htok : pySplit l with
    | nil => simp [hostOfTokens, htok] at hmem
    | cons c a =>
      simp [hostOfTokens, htok] at hmem
      subst hmem
      rfl

/-- C8: the payload built by `submit_request` selects the multi-domain
type code (`igtfmultidomain`) exactly when the alt-name list is non-empty
and the single-server code (`igtfservercert`) exactly when it is empty,
carries a `subjAltNames` entry if and only if alt-names are present (and
then exactly the supplied list), and carries the department identifier as
`orgId`, the configured term, and a comment embedding the subject
hostname. -/
theorem payload_certtype_and_fields (hostname cert_csr : String)
    (sans : List String) :
    ((buildPayload CONFIG hostname cert_csr sans).certType
        = CONFIG.igtfmultidomain ↔ sans ≠ []) ∧
    ((buildPayload CONFIG hostname cert_csr sans).certType
        = CONFIG.igtfservercert ↔ sans = []) ∧
    ((buildPayload CONFIG hostname cert_csr sans).subjAltNames
        = some sans ↔ sans ≠ []) ∧
    ((buildPayload CONFIG hostname cert_csr sans).subjAltNames
        = none ↔ sans = []) ∧
    (buildPayload CONFIG hostname cert_csr sans).orgId
        = CONFIG.department ∧
    (buildPayload CONFIG hostname cert_csr sans).term = CONFIG.term ∧
    (buildPayload CONFIG hostname cert_csr sans).comments
        = "Certificate request for " ++ hostname := by
  cases sans with
  | nil => simp [buildPayload, CONFIG]
  | cons a rest =>
    refine ⟨by simp [buildPayload], ?_, by simp [buildPayload], ?_, rfl, rfl, rfl⟩
    · constructor
      · intro hcontra
        simp [buildPayload, CONFIG] at hcontra
      · intro hcontra
        simp at hcontra
    · constructor
      · intro hcontra
        simp [buildPayload] at hcontra
      · intro hcontra
        simp at hcontra

theorem runMain_csrHosts (hosts : List Host) (senv : Host → SubmitEvent)
    (renv : Nat → Nat → TransportEvent) :
    (runMain hosts senv renv).csrHosts = hosts.dedup := by
  rw [runMain, assembleRun]
  split
  · split <;> rfl
  · rfl

theorem runMain_keysWritten (hosts : List Host) (senv : Host → SubmitEvent)
    (renv : Nat → Nat → TransportEvent) :
    (runMain hosts senv renv).keysWritten
      = (submitPhase senv hosts.dedup).keysWritten := by
  rw [runMain, assembleRun]
  split
  · split <;> rfl
  · rfl

theorem runMain_submitted (hosts : List Host) (senv : Host → SubmitEvent)
    (renv : Nat → Nat → TransportEvent) :
    (runMain hosts senv renv).submitted
      = (submitPhase senv hosts.dedup).submitted := by
  rw [runMain, assembleRun]
  split
  · split <;> rfl
  · rfl

theorem runMain_tickets (hosts : List Host) (senv : Host → SubmitEvent)
    (renv : Nat → Nat → TransportEvent) :
    (runMain hosts senv renv).tickets
      = (submitPhase senv hosts.dedup).tickets := by
  rw [runMain, assembleRun]
  split
  · split <;> rfl
  · rfl

theorem runMain_submitOk (hosts : List Host) (senv : Host → SubmitEvent)
    (renv : Nat → Nat → TransportEvent) :
    (runMain hosts senv renv).submitOk
      = (submitPhase senv hosts.dedup).ok := by
  rw [runMain, assembleRun]
  split
  · split
    all_goals rename_i hsp _
    all_goals exact hsp.symm
  · rename_i hsp
    simp at hsp
    exact hsp.symm

theorem submitPhase_keys (senv : Host → SubmitEvent) :
    ∀ hs : List Host,
    (submitPhase senv hs).keysWritten
      = ((submitPhase senv hs).submitted.filter
          (fun h => submitObtainedId senv h)).map Host.cn := by
  intro hs
  induction hs with
  | nil => rfl
  | cons h rest ih =>
    cases hsub : submit_request (subjOf h) (csrBodyOf h) h.alts
        (fun _ => senv h) with
    | httpExc => simp [submitPhase, hsub, submitObtainedId]
    | keyError => simp [submitPhase, hsub, submitObtainedId]
    | ok r =>
      by_cases ht : truthy r = true
      · simp [submitPhase, hsub, ht, submitObtainedId, ih]
      · have ht' : truthy r = false := by simpa using ht
        simp [submitPhase, hsub, ht', submitObtainedId, ih]

theorem submitPhase_submitted_of_ok (senv : Host → SubmitEvent) :
    ∀ hs : List Host, (submitPhase senv hs).ok = true →
    (submitPhase senv hs).submitted = hs := by
  intro hs
  induction hs with
  | nil => intro _; rfl
  | cons h rest ih =>
    intro hok
    cases hsub : submit_request (subjOf h) (csrBodyOf h) h.alts
        (fun _ => senv h) with
    | httpExc => simp [submitPhase, hsub] at hok
    | keyError => simp [submitPhase, hsub] at hok
    | ok r =>
      by_cases ht : truthy r = true
      · simp [submitPhase, hsub, ht] at hok ⊢
        exact ih hok
      · have ht' : truthy r = false := by simpa using ht
        simp [submitPhase, hsub, ht'] at hok ⊢
        exact ih hok

theorem submitPhase_trace_events (senv : Host → SubmitEvent) :
    ∀ hs : List Host, ∀ e ∈ (submitPhase senv hs).trace,
      (∃ h, e = Event.submitReq h) ∨ ∃ cn, e = Event.keyWrite cn := by
  intro hs
  induction hs with
  | nil => intro e he; simp [submitPhase] at he
  | cons h rest ih =>
    intro e he
    cases hsub : submit_request (subjOf h) (csrBodyOf h) h.alts
        (fun _ => senv h) with
    | httpExc =>
      simp [submitPhase, hsub] at he
      exact Or.inl ⟨h, he⟩
    | keyError =>
      simp [submitPhase, hsub] at he
      exact Or.inl ⟨h, he⟩
    | ok r =>
      by_cases ht : truthy r = true
      · simp [submitPhase, hsub, ht] at he
        rcases he with he | he | he
        · exact Or.inl ⟨h, he⟩
        · exact Or.inr ⟨h.cn, he⟩
        · exact ih e he
      · have ht' : truthy r = false := by simpa using ht
        simp [submitPhase, hsub, ht'] at he
        rcases he with he | he
        · exact Or.inl ⟨h, he⟩
        · exact ih e he

theorem retrievePhase_trace_events (renv : Nat → Nat → TransportEvent) :
    ∀ ts : List Ticket, ∀ e ∈ (retrievePhase renv ts).trace,
      (∃ id, e = Event.retrieveQuery id) ∨ ∃ n, e = Event.certWrite n := by
  intro ts
  induction ts with
  | nil => intro e he; simp [retrievePhase] at he
  | cons t rest ih =>
    intro e he
    rcases hres : retrieve_cert (renv t.sslId) with ⟨res, tr⟩
    cases res with
    | delivered b =>
      simp [retrievePhase, hres] at he
      rcases he with he | he | he
      · exact Or.inl ⟨t.sslId, he.2⟩
      · exact Or.inr ⟨certFileBase t.subject, he⟩
      · exact ih e he
    | exhausted =>
      simp [retrievePhase, hres] at he
      rcases he with he | he
      · exact Or.inl ⟨t.sslId, he.2⟩
      · exact ih e he
    | fatal =>
      simp [retrievePhase, hres] at he
      exact Or.inl ⟨t.sslId, he.2⟩

theorem submitPhase_tickets_have_keys (senv : Host → SubmitEvent) :
    ∀ hs : List Host, ∀ t ∈ (submitPhase senv hs).tickets,
      ∃ h : Host, t.subject = subjOf h ∧
        h.cn ∈ (submitPhase senv hs).keysWritten := by
  intro hs
  induction hs with
  | nil => intro t ht; simp [submitPhase] at ht
  | cons h rest ih =>
    intro t ht
    cases hsub : submit_request (subjOf h) (csrBodyOf h) h.alts
        (fun _ => senv h) with
    | httpExc => simp [submitPhase, hsub] at ht
    | keyError => simp [submitPhase, hsub] at ht
    | ok r =>
      by_cases htr : truthy r = true
      · simp only [submitPhase, hsub, htr, if_pos] at ht ⊢
        simp only [List.mem_cons] at ht
        rcases ht with ht | ht
        · exact ⟨h, by rw [ht], List.mem_cons_self _ _⟩
        · obtain ⟨h', hsubj, hk⟩ := ih t ht
          exact ⟨h', hsubj, List.mem_cons_of_mem _ hk⟩
      · have htr' : truthy r = false := by simpa using htr
        simp only [submitPhase, hsub, htr', Bool.false_eq_true, if_neg,
          ite_false] at ht ⊢
        exact ih t ht

theorem retrievePhase_certs_of_ok (renv : Nat → Nat → TransportEvent) :
    ∀ ts : List Ticket, (retrievePhase renv ts).ok = true →
    (retrievePhase renv ts).certsWritten
      = (ts.filter
          (fun t => isDeliveredB (retrieve_cert (renv t.sslId)).1)).map
          (fun t => certFileBase t.subject) := by
  intro ts
  induction ts with
  | nil => intro _; rfl
  | cons t rest ih =>
    intro hok
    rcases hres : retrieve_cert (renv t.sslId) with ⟨res, tr⟩
    cases res with
    | delivered b =>
      simp [retrievePhase, hres] at hok ⊢
      simp [isDeliveredB, ih hok, List.filter_cons, hres]
    | exhausted =>
      simp [retrievePhase, hres] at hok ⊢
      simp [isDeliveredB, ih hok, List.filter_cons, hres]
    | fatal =>
      simp [retrievePhase, hres] at hok

theorem runMain_trace_of_submitOk (hosts : List Host)
    (senv : Host → SubmitEvent) (renv : Nat → Nat → TransportEvent)
    (hok : (runMain hosts senv renv).submitOk = true) :
    (runMain hosts senv renv).trace
      = (submitPhase senv hosts.dedup).trace ++ Event.approvalWait ::
          (retrievePhase renv (submitPhase senv hosts.dedup).tickets).trace := by
  rw [runMain_submitOk] at hok
  rw [runMain, assembleRun, if_pos hok]
  split <;> rfl

theorem runMain_retrieve_fields (hosts : List Host)
    (senv : Host → SubmitEvent) (renv : Nat → Nat → TransportEvent)
    (hok : (submitPhase senv hosts.dedup).ok = true) :
    (runMain hosts senv renv).retrieveOk
        = (retrievePhase renv (submitPhase senv hosts.dedup).tickets).ok ∧
    (runMain hosts senv renv).certsWritten
        = (retrievePhase renv (submitPhase senv hosts.dedup).tickets).certsWritten := by
  rw [runMain, assembleRun, if_pos hok]
  split
  · rename_i hrp
    exact ⟨hrp.symm, rfl⟩
  · rename_i hrp
    simp only [Bool.not_eq_true] at hrp
    exact ⟨hrp.symm, rfl⟩

/-- C2 counterexample: with two distinct hosts where the first submission
returns HTTP 200 without an `sslId` field, the run does not continue with
the remaining host: `submit_request` raises `KeyError`, `main`'s handler
exits with status 1, the second host is never submitted, and no summary is
printed — contradicting the claim that the orchestrator logs and continues
processing the remaining hosts of the batch. -/
theorem submit_missing_sslId_aborts_cex :
    (runMain [hostA, hostB] senvMissingId renvAlways200).exitCode = 1 ∧
    (runMain [hostA, hostB] senvMissingId renvAlways200).submitted = [hostA] ∧
    (runMain [hostA, hostB] senvMissingId renvAlways200).summary = none := by
  refine ⟨by decide, by decide, by decide⟩

theorem submitPhase_keyError_mid (senv : Host → SubmitEvent) (A : Host)
    (suf : List Host)
    (hA : submit_request (subjOf A) (csrBodyOf A) A.alts (fun _ => senv A)
        = .keyError) :
    ∀ pre : List Host,
      (∀ h ∈ pre, ∃ r, submit_request (subjOf h) (csrBodyOf h) h.alts
          (fun _ => senv h) = .ok r) →
      (submitPhase senv (pre ++ A :: suf)).ok = false ∧
      (submitPhase senv (pre ++ A :: suf)).submitted = pre ++ [A] := by
  intro pre
  induction pre with
  | nil =>
    intro _
    simp [submitPhase, hA]
  | cons h pre ih =>
    intro hpre
    obtain ⟨r, hr⟩ := hpre h (List.mem_cons_self h pre)
    have htail := ih (fun h' hm => hpre h' (List.mem_cons_of_mem h hm))
    by_cases ht : truthy r = true
    · simp [submitPhase, hr, ht, htail.1, htail.2]
    · have ht' : truthy r = false := by simpa using ht
      simp [submitPhase, hr, ht', htail.1, htail.2]

theorem runMain_abort_fields (hosts : List Host)
    (senv : Host → SubmitEvent) (renv : Nat → Nat → TransportEvent)
    (hko : (submitPhase senv hosts.dedup).ok = false) :
    (runMain hosts senv renv).exitCode = 1 ∧
    (runMain hosts senv renv).summary = none := by
  have hn : ¬ ((submitPhase senv hosts.dedup).ok = true) := by simp [hko]
  rw [runMain, assembleRun, if_neg hn]
  exact ⟨rfl, rfl⟩

/-- C2 amended: a submission whose HTTP 200 response body lacks the
`sslId` field makes `submit_request` raise `KeyError`, at any position of
the batch: if the hosts processed before it all had their submission
return (rather than raise), `main`'s `KeyError` handler logs the error and
exits the whole run with status 1 — exactly the hosts up to and including
the failing one were submitted, the remaining ones are never reached, and
no summary is printed.  (Only a non-200 status yields no ticket while the
batch continues; that case is covered by the key-write theorem for C5.) -/
theorem submit_missing_sslId_amended (hosts : List Host)
    (senv : Host → SubmitEvent) (renv : Nat → Nat → TransportEvent)
    (pre : List Host) (A : Host) (suf : List Host)
    (hd : hosts.dedup = pre ++ A :: suf)
    (hpre : ∀ h ∈ pre, ∃ r, submit_request (subjOf h) (csrBodyOf h) h.alts
        (fun _ => senv h) = .ok r)
    (hA : senv A = .resp 200 none) :
    submit_request (subjOf A) (csrBodyOf A) A.alts (fun _ => senv A)
        = .keyError ∧
    (runMain hosts senv renv).exitCode = 1 ∧
    (runMain hosts senv renv).submitted = pre ++ [A] ∧
    (runMain hosts senv renv).summary = none := by
  have hsub : submit_request (subjOf A) (csrBodyOf A) A.alts
      (fun _ => senv A) = .keyError := by
    simp [submit_request, hA]
  have hmid := submitPhase_keyError_mid senv A suf hsub pre hpre
  have hko : (submitPhase senv hosts.dedup).ok = false := by
    rw [hd]
    exact hmid.1
  have habort := runMain_abort_fields hosts senv renv hko
  refine ⟨hsub, habort.1, ?_, habort.2⟩
  rw [runMain_submitted, hd]
  exact hmid.2

/-- Witness for C2's amended claim at a concrete two-host batch whose
failing submission is mid-batch: `hostB`'s submission succeeds first, then
`hostA`'s 200-without-`sslId` response aborts the run. -/
theorem submit_missing_sslId_amended_witness :
    ([hostB, hostA].dedup = [hostB] ++ hostA :: []) ∧
    (senvMissingId hostA = .resp 200 none) ∧
    (runMain [hostB, hostA] senvMissingId renvAlways200).exitCode = 1 ∧
    (runMain [hostB, hostA] senvMissingId renvAlways200).submitted
        = [hostB] ++ [hostA] ∧
    (runMain [hostB, hostA] senvMissingId renvAlways200).summary = none := by
  have hc := submit_missing_sslId_amended [hostB, hostA] senvMissingId
    renvAlways200 [hostB] hostA [] (by decide)
    (by
      intro x hx
      simp only [List.mem_singleton] at hx
      subst hx
      exact ⟨some 2, rfl⟩)
    (by decide)
  exact ⟨by decide, by decide, hc.2.1, hc.2.2.1, hc.2.2.2⟩

/-- C3: the final summary prints `len(requests)` — the number of hosts
that obtained a tracking id — as the count of certificates "requested and
retrieved successfully".  When `hostA`'s retrieval exhausts its budget
while `hostB`'s succeeds, the run still reports `(2, 2)` although only one
certificate file was written, contradicting the claimed (and intended)
meaning of the printed message.  Evaluation of the model at the failing
input. -/
theorem summary_counts_tickets_not_certs :
    (runMain [hostA, hostB] senvBothIds renvFirstPending).summary
        = some (2, 2) ∧
    (runMain [hostA, hostB] senvBothIds renvFirstPending).certsWritten
        = ["b.example.org"] ∧
    (runMain [hostA, hostB] senvBothIds renvFirstPending).exitCode = 0 := by
  refine ⟨by decide, by decide, by decide⟩

/-- C5: the private-key file of a host is written if and only if that
host's submission was reached and returned a (truthy) tracking id: the
keys written are exactly the common names of the submitted hosts whose
`submit_request` returned a truthy `sslId`.  A submission that fails or
returns no tracking id leaves no key file, and hosts never reached after
an abort leave none either. -/
theorem key_written_iff_submission_succeeded (hosts : List Host)
    (senv : Host → SubmitEvent) (renv : Nat → Nat → TransportEvent) :
    (runMain hosts senv renv).keysWritten
      = ((runMain hosts senv renv).submitted.filter
          (fun h => submitObtainedId senv h)).map Host.cn := by
  rw [runMain_keysWritten, runMain_submitted]
  exact submitPhase_keys senv hosts.dedup

/-- C7: every host tuple occurring in the batch — in particular one
occurring two or more times — yields exactly one CSR, and (when the
submission loop completes) exactly one enrollment submission: identical
`(common_name, alt_names)` tuples collapse to one via `set(hosts)`. -/
theorem duplicate_tuples_collapse (hosts : List Host)
    (senv : Host → SubmitEvent) (renv : Nat → Nat → TransportEvent)
    (h : Host) (hmem : h ∈ hosts) :
    (runMain hosts senv renv).csrHosts.count h = 1 ∧
    ((runMain hosts senv renv).submitOk = true →
      (runMain hosts senv renv).submitted.count h = 1) := by
  constructor
  · rw [runMain_csrHosts]
    exact List.count_eq_one_of_mem (List.nodup_dedup hosts)
      (List.mem_dedup.mpr hmem)
  · intro hok
    rw [runMain_submitted]
    rw [runMain_submitOk] at hok
    rw [submitPhase_submitted_of_ok senv hosts.dedup hok]
    exact List.count_eq_one_of_mem (List.nodup_dedup hosts)
      (List.mem_dedup.mpr hmem)

/-- Witness for C7: a batch containing `a.example.org` twice builds one
CSR and performs one submission for it. -/
theorem duplicate_tuples_collapse_witness :
    (hostA ∈ [hostA, hostA]) ∧
    (runMain [hostA, hostA] senvBothIds renvAlways200).csrHosts.count hostA
        = 1 ∧
    (runMain [hostA, hostA] senvBothIds renvAlways200).submitted.count hostA
        = 1 := by
  refine ⟨by decide, ?_, ?_⟩
  · exact (duplicate_tuples_collapse [hostA, hostA] senvBothIds renvAlways200
      hostA (by decide)).1
  · exact (duplicate_tuples_collapse [hostA, hostA] senvBothIds renvAlways200
      hostA (by decide)).2 (by decide)

/-- C10: when the submission loop completes, the run's trace is the
submission-phase events (submissions and key writes only) followed by the
single approval wait followed by the retrieval-phase events (retrieval
queries and certificate writes only) — so every key write precedes the
approval wait and every retrieval attempt; every ticket's host has its key
file written regardless of the retrieval outcome (a host whose retrieval
exhausts its budget keeps its key file); and the certificate files written
are exactly those of the tickets whose retrieval returned certificate
bytes. -/
theorem key_before_wait_and_retrieval (hosts : List Host)
    (senv : Host → SubmitEvent) (renv : Nat → Nat → TransportEvent)
    (hok : (runMain hosts senv renv).submitOk = true) :
    (runMain hosts senv renv).trace
      = (submitPhase senv hosts.dedup).trace ++ Event.approvalWait ::
          (retrievePhase renv (submitPhase senv hosts.dedup).tickets).trace ∧
    (∀ e ∈ (submitPhase senv hosts.dedup).trace,
      (∃ h, e = Event.submitReq h) ∨ ∃ cn, e = Event.keyWrite cn) ∧
    (∀ e ∈ (retrievePhase renv (submitPhase senv hosts.dedup).tickets).trace,
      (∃ id, e = Event.retrieveQuery id) ∨ ∃ n, e = Event.certWrite n) ∧
    (∀ t ∈ (runMain hosts senv renv).tickets,
      ∃ h, t.subject = subjOf h ∧
        h.cn ∈ (runMain hosts senv renv).keysWritten) ∧
    ((runMain hosts senv renv).retrieveOk = true →
      (runMain hosts senv renv).certsWritten
        = ((runMain hosts senv renv).tickets.filter
            (fun t => isDeliveredB (retrieve_cert (renv t.sslId)).1)).map
            (fun t => certFileBase t.subject)) := by
  have hspok : (submitPhase senv hosts.dedup).ok = true := by
    rw [← runMain_submitOk hosts senv renv]
    exact hok
  refine ⟨runMain_trace_of_submitOk hosts senv renv hok,
    submitPhase_trace_events senv hosts.dedup,
    retrievePhase_trace_events renv _, ?_, ?_⟩
  · intro t ht
    rw [runMain_tickets] at ht
    rw [runMain_keysWritten]
    exact submitPhase_tickets_have_keys senv hosts.dedup t ht
  · intro hrok
    obtain ⟨hro, hcw⟩ := runMain_retrieve_fields hosts senv renv hspok
    rw [hro] at hrok
    rw [hcw, runMain_tickets]
    exact retrievePhase_certs_of_ok renv _ hrok

/-- Witness for C10: a single host whose submission succeeds and whose
retrieval exhausts its budget — the key is written before the approval
wait, and the trace splits as stated. -/
theorem key_before_wait_and_retrieval_witness :
    (runMain [hostA] senvBothIds renvAllPending).submitOk = true ∧
    (runMain [hostA] senvBothIds renvAllPending).trace
      = (submitPhase senvBothIds ([hostA] : List Host).dedup).trace
          ++ Event.approvalWait ::
          (retrievePhase renvAllPending
            (submitPhase senvBothIds ([hostA] : List Host).dedup).tickets).trace :=
  ⟨by decide,
    (key_before_wait_and_retrieval [hostA] senvBothIds renvAllPending
      (by decide)).1⟩

